import Mathlib

/-
Shallow embedding of `src/sptrader/spbroker.py` (class `SharpPointBroker`).

Conventions of the embedding:
* Python floats are modelled as exact rationals (ℚ); sizes as integers (ℤ).
* Python exceptions are modelled with `Except SPError`; an error result stands
  for the call raising (partial mutations performed before a raise are not
  retained by the model, which no theorem below depends on).
* The `backtrader` dependency (classes `Order`, `OrderData`, `Position` from
  `backtrader.order` / `backtrader.position`) is not part of the repository;
  its methods used by `spbroker.py` are embedded here from their published
  semantics: `submit`, `accept` and `reject` take an optional broker argument
  and set the status unconditionally (`reject` no-ops when the order is
  already rejected), while `cancel` and `expire` take no broker argument at
  all — so the broker's calls `order.cancel(self)` and `order.expire(self)`
  raise `TypeError` on every invocation; `execute` accumulates executed
  size/average price and returns early on a zero size; sell orders carry a
  negated (non-positive) size; `Position.update` nets a fill against the
  current position (reachable only from dead code, since `_fill` raises
  first — see its doc comment).
* External collaborators (the `SharpPointStore`, market data, commission
  schema) are out of scope: values read from them (`data.datetime[0]`) are
  passed as explicit arguments, and calls into them (`order_create`,
  `order_cancel`) are reported in the result instead of performed.
-/

namespace SPTrader

/-- Python exception kinds raised by the embedded code paths. `keyError` is
raised by a dict lookup with an unregistered key (the spec's `UnknownOrder`);
`typeError` by a call whose arguments do not match the callee's signature;
`zeroDivisionError` by the average-price update when the executed size reaches
zero (dead code here); `attributeError` by access to attributes that do not
exist. -/
inductive SPError
  | keyError
  | typeError
  | zeroDivisionError
  | attributeError
deriving DecidableEq

/-- Order lifecycle statuses of `backtrader.order.Order` (`Cancelled` is the
alias of `Canceled`). -/
inductive OrderStatus
  | Created
  | Submitted
  | Accepted
  | Partial
  | Completed
  | Cancelled
  | Expired
  | Margin
  | Rejected
deriving DecidableEq

/-- Execution types supported by the broker docstring. -/
inductive ExecType
  | Market
  | Close
  | Limit
  | Stop
  | StopLimit
deriving DecidableEq

/-- Terminal statuses per the spec's state machine. -/
def OrderStatus.isTerminal : OrderStatus → Bool
  | .Completed => true
  | .Cancelled => true
  | .Rejected => true
  | .Expired => true
  | _ => false

/-- `backtrader.order.OrderData`: the execution bookkeeping attached to an
order (`order.executed`). -/
structure OrderData where
  dt : Option ℚ
  size : ℤ
  price : ℚ
  remsize : ℤ
  value : ℚ
  comm : ℚ
  pnl : ℚ
  margin : ℚ
  psize : ℤ
  pprice : ℚ
deriving DecidableEq

/-- `OrderData(remsize=size)` as built by `OrderBase.__init__`. -/
def OrderData.create (remsize : ℤ) : OrderData :=
  { dt := none, size := 0, price := 0, remsize := remsize,
    value := 0, comm := 0, pnl := 0, margin := 0, psize := 0, pprice := 0 }

/-- `OrderData.clone`; the record has value semantics here. -/
def OrderData.clone (d : OrderData) : OrderData := d

/-- `OrderData.addbit`: accumulate an execution bit. Python computes
`self.price = (oldvalue + newvalue) / self.size` after `self.size += size`,
so a new executed size of zero raises `ZeroDivisionError`, modelled as
`none`. -/
def OrderData.addbit (d : OrderData) (dt : ℚ) (size : ℤ) (price : ℚ)
    (closedvalue closedcomm : ℚ) (openedvalue openedcomm : ℚ)
    (pnl : ℚ) (psize : ℤ) (pprice : ℚ) : Option OrderData :=
  if d.size + size = 0 then none
  else some
    { d with
      dt := some dt,
      size := d.size + size,
      price := (d.price * (d.size : ℚ) + (size : ℚ) * price) / ((d.size + size : ℤ) : ℚ),
      value := d.value + closedvalue + openedvalue,
      comm := d.comm + closedcomm + openedcomm,
      pnl := d.pnl + pnl,
      psize := psize,
      pprice := pprice,
      remsize := d.remsize - size }

/-- The order record (`backtrader.order.Order`). Fields that only matter to
external collaborators (owner, info kwargs, broker backreference, `plen`) are
omitted. `isbuy` distinguishes `BuyOrder` from `SellOrder`; a sell order's
`size` is the negation of the requested amount, as set by
`OrderBase.__init__`. -/
structure Order where
  ref : ℕ
  isbuy : Bool
  data : ℕ
  size : ℤ
  price : Option ℚ
  pricelimit : Option ℚ
  exectype : ExecType
  valid : Option ℚ
  tradeid : ℤ
  status : OrderStatus
  executed : OrderData
deriving DecidableEq

/-- `Order.clone`: a copy whose `executed` is cloned. -/
def Order.clone (o : Order) : Order :=
  { o with executed := o.executed.clone }

/-- `Order.submit`: sets status `Submitted` (the broker backreference and
`plen` bookkeeping are dropped). -/
def Order.submit (o : Order) : Order :=
  { o with status := .Submitted }

/-- `Order.accept`: sets status `Accepted`. -/
def Order.accept (o : Order) : Order :=
  { o with status := .Accepted }

/-- `Order.reject`: returns unchanged when already rejected, otherwise sets
status `Rejected` and stamps `executed.dt` (the boolean Python return value is
ignored by `_reject`). -/
def Order.reject (o : Order) (dt : ℚ) : Order :=
  if o.status = .Rejected then o
  else { o with status := .Rejected, executed := { o.executed with dt := some dt } }

/-- `Order.cancel` (published semantics — it takes no broker parameter):
unconditionally sets status `Cancelled` and stamps `executed.dt` with the
externally read `data.datetime[0]`. The broker's `_cancel` never reaches this
body: its call `order.cancel(self)` passes an argument the method does not
accept. -/
def Order.cancel (o : Order) (dt : ℚ) : Order :=
  { o with status := .Cancelled, executed := { o.executed with dt := some dt } }

/-- `Order.expire` (published semantics — it takes no broker parameter):
refuses `Market` orders, returning `false` with the status unchanged, and
otherwise marks the order expired and stamps `executed.dt`; the boolean
reports whether it worked. The broker's `_expire` never reaches this body:
its call `order.expire(self)` passes an argument the method does not
accept. -/
def Order.expire (o : Order) (dt : ℚ) : Order × Bool :=
  if o.exectype = .Market then (o, false)
  else ({ o with status := .Expired, executed := { o.executed with dt := some dt } }, true)

/-- `Order.partial` of the source: sets status `Partial` (renamed here because
of lexical constraints on the identifier). -/
def Order.markPartial (o : Order) : Order :=
  { o with status := .Partial }

/-- `Order.completed`: sets status `Completed`. -/
def Order.completed (o : Order) : Order :=
  { o with status := .Completed }

/-- `Order.execute`: returns immediately when `size` is zero, otherwise
delegates to `executed.add`/`addbit` and stores the margin. `none` models the
`ZeroDivisionError` escaping from `addbit`. -/
def Order.execute (o : Order) (dt : ℚ) (size : ℤ) (price : ℚ)
    (closedvalue closedcomm : ℚ) (openedvalue openedcomm : ℚ)
    (margin pnl : ℚ) (psize : ℤ) (pprice : ℚ) : Option Order :=
  if size = 0 then some o
  else
    match o.executed.addbit dt size price closedvalue closedcomm
        openedvalue openedcomm pnl psize pprice with
    | none => none
    | some d => some { o with executed := { d with margin := margin } }

/-- `backtrader.position.Position`: signed quantity and average entry
price. -/
structure Position where
  size : ℤ
  price : ℚ
deriving DecidableEq

/-- Result bundle of `Position.update`: the updated position together with the
returned tuple `(size, price, opened, closed)`. -/
structure PosUpdate where
  pos : Position
  psize : ℤ
  pprice : ℚ
  opened : ℤ
  closed : ℤ
deriving DecidableEq

/-- `Position.update(size, price)`: nets the fill against the current
position, splitting it into opened and closed portions; a sign reversal closes
the old position and opens the remainder at the fill price. -/
def Position.update (p : Position) (size : ℤ) (price : ℚ) : PosUpdate :=
  let oldsize := p.size
  let newsize := p.size + size
  if newsize = 0 then
    { pos := { size := 0, price := 0 }, psize := 0, pprice := 0,
      opened := 0, closed := size }
  else if oldsize = 0 then
    { pos := { size := newsize, price := price }, psize := newsize, pprice := price,
      opened := size, closed := 0 }
  else if 0 < oldsize then
    if 0 < size then
      let np := (p.price * (oldsize : ℚ) + (size : ℚ) * price) / ((newsize : ℤ) : ℚ)
      { pos := { size := newsize, price := np }, psize := newsize, pprice := np,
        opened := size, closed := 0 }
    else if 0 < newsize then
      { pos := { size := newsize, price := p.price }, psize := newsize, pprice := p.price,
        opened := 0, closed := size }
    else
      { pos := { size := newsize, price := price }, psize := newsize, pprice := price,
        opened := newsize, closed := -oldsize }
  else
    if size < 0 then
      let np := (p.price * (oldsize : ℚ) + (size : ℚ) * price) / ((newsize : ℤ) : ℚ)
      { pos := { size := newsize, price := np }, psize := newsize, pprice := np,
        opened := size, closed := 0 }
    else if newsize < 0 then
      { pos := { size := newsize, price := p.price }, psize := newsize, pprice := p.price,
        opened := 0, closed := size }
    else
      { pos := { size := newsize, price := price }, psize := newsize, pprice := price,
        opened := newsize, closed := -oldsize }

/-- Lookup in an insertion-ordered association list, modelling a Python
(ordered) dict read `l[k]` (`none` models the `KeyError`). -/
def lookupAssoc {α : Type} : List (ℕ × α) → ℕ → Option α
  | [], _ => none
  | (k, v) :: rest, r => if k = r then some v else lookupAssoc rest r

/-- Write `l[k] = v` on an insertion-ordered association list: replace in
place when the key exists, append otherwise. -/
def updateAssoc {α : Type} (k : ℕ) (v : α) : List (ℕ × α) → List (ℕ × α)
  | [] => [(k, v)]
  | (k', v') :: rest =>
      if k' = k then (k, v) :: rest else (k', v') :: updateAssoc k v rest

/-- State of a `SharpPointBroker` instance: starting and current cash, the
`checksubmit`/`eosbar` parameters, the id-keyed order dict, the pending and
submitted deques, the per-data position dict, and the notification deque
(`none` entries are the per-step boundary markers appended by `next`). -/
structure SharpPointBroker where
  startingcash : ℚ
  cash : ℚ
  checksubmit : Bool
  eosbar : Bool
  orders : List (ℕ × Order)
  pending : List Order
  positions : List (ℕ × Position)
  notifs : List (Option Order)
  submitted : List Order
deriving DecidableEq

namespace SharpPointBroker

/-- `getposition(data)`: `self.positions` is a `defaultdict(Position)`, so a
missing key yields a fresh zero position. -/
def getposition (b : SharpPointBroker) (data : ℕ) : Position :=
  (lookupAssoc b.positions data).getD { size := 0, price := 0 }

/-- `get_cash`. -/
def get_cash (b : SharpPointBroker) : ℚ := b.cash

/-- `set_cash(cash)`: resets starting and current cash (the `p.cash` param is
subsumed by `startingcash`). -/
def set_cash (b : SharpPointBroker) (cash : ℚ) : SharpPointBroker :=
  { b with startingcash := cash, cash := cash }

/-- `get_value(datas=None)`: the body is literally `return 0.0`. -/
def get_value (b : SharpPointBroker) (datas : Option (List ℕ)) : ℚ := 0

/-- `notify(order)`: appends `order.clone()` to the notification deque. -/
def notify (b : SharpPointBroker) (order : Order) : SharpPointBroker :=
  { b with notifs := b.notifs ++ [some order.clone] }

/-- `get_notification`: the second (overriding) definition in the source —
returns `None` when the deque is empty, otherwise pops the oldest entry (which
is itself `None` for a boundary marker). -/
def get_notification (b : SharpPointBroker) : Option Order × SharpPointBroker :=
  match b.notifs with
  | [] => (none, b)
  | n :: rest => (n, { b with notifs := rest })

/-- `next`: appends a `None` boundary marker to the notification deque. -/
def next (b : SharpPointBroker) : SharpPointBroker :=
  { b with notifs := b.notifs ++ [none] }

/-- `orderstatus(order)`: `self.orders[order.ref].status`; an unregistered
ref raises `KeyError`. -/
def orderstatus (b : SharpPointBroker) (order : Order) : Except SPError OrderStatus :=
  match lookupAssoc b.orders order.ref with
  | none => .error .keyError
  | some o => .ok o.status

/-- `submit(order)`: with `checksubmit` the source marks the order submitted,
appends it to the `submitted` deque and then calls `self.orders.append(order)`
— but `self.orders` is an `OrderedDict`, which has no `append`, so the call
raises `AttributeError` and the order never enters the id-keyed dict; without
`checksubmit` it calls `self.submit_accept(order)`, a method this class does
not define, which also raises `AttributeError`. The pair returned is the state
as mutated before the raise together with the raised error. -/
def submit (b : SharpPointBroker) (order : Order) :
    SharpPointBroker × Option SPError :=
  if b.checksubmit then
    ({ b with submitted := b.submitted ++ [order.submit] }, some .attributeError)
  else
    (b, some .attributeError)

/-- `_submit(oref)`: look up, mark submitted, notify. -/
def _submit (b : SharpPointBroker) (oref : ℕ) : Except SPError SharpPointBroker :=
  match lookupAssoc b.orders oref with
  | none => .error .keyError
  | some order =>
    .ok (notify { b with orders := updateAssoc oref order.submit b.orders } order.submit)

/-- `_reject(oref)`: look up, mark rejected, notify. -/
def _reject (b : SharpPointBroker) (oref : ℕ) (dt : ℚ) : Except SPError SharpPointBroker :=
  match lookupAssoc b.orders oref with
  | none => .error .keyError
  | some order =>
    .ok (notify { b with orders := updateAssoc oref (order.reject dt) b.orders }
      (order.reject dt))

/-- `_accept(oref)`: look up, mark accepted, notify. -/
def _accept (b : SharpPointBroker) (oref : ℕ) : Except SPError SharpPointBroker :=
  match lookupAssoc b.orders oref with
  | none => .error .keyError
  | some order =>
    .ok (notify { b with orders := updateAssoc oref order.accept b.orders } order.accept)

/-- `_cancel(oref)`: looks up the order (`KeyError` when the ref is
unregistered) and then calls `order.cancel(self)` — but the published
`Order.cancel` of the `backtrader` dependency takes no broker argument, so
the call raises `TypeError` on every invocation, before any status change or
notification; no state is mutated. -/
def _cancel (b : SharpPointBroker) (oref : ℕ) : Except SPError SharpPointBroker :=
  match lookupAssoc b.orders oref with
  | none => .error .keyError
  | some _ => .error .typeError

/-- `_expire(oref)`: looks up the order (`KeyError` when the ref is
unregistered) and then calls `order.expire(self)` — but the published
`Order.expire` of the `backtrader` dependency takes no broker argument, so
the call raises `TypeError` on every invocation, before any status change or
notification; no state is mutated. -/
def _expire (b : SharpPointBroker) (oref : ℕ) : Except SPError SharpPointBroker :=
  match lookupAssoc b.orders oref with
  | none => .error .keyError
  | some _ => .error .typeError

/-- `_fill(oref, size, price)`: looks up the order (`KeyError` when the ref
is unregistered) and then runs `pos = self.getposition(data, clone=False)` —
but this class's own `getposition` (the override Python resolves) accepts no
`clone` keyword, so every `_fill` call raises `TypeError` at that line,
before the position update, `order.execute`, the `Partial`/`Completed`
transition and the notification are reached; no state is mutated. The rest of
the body — `Position.update`, `Order.execute` with every value, commission,
margin and P&L figure fixed at zero, the `Order.partial`/`Order.completed`
status choice on the remaining size, and `notify` — is dead code (its pieces
are embedded above for reference but are unreachable from here). -/
def _fill (b : SharpPointBroker) (oref : ℕ) (size : ℤ) (price dt : ℚ) :
    Except SPError SharpPointBroker :=
  match lookupAssoc b.orders oref with
  | none => .error .keyError
  | some _ => .error .typeError

/-- `buy(...)`: constructs a `BuyOrder` with no validation whatsoever,
registers it under its ref and hands it to the store (`self.o.order_create`);
the fresh ref drawn from the global counter is passed explicitly. The order is
returned so the caller observes what was forwarded. -/
def buy (b : SharpPointBroker) (ref : ℕ) (data : ℕ) (size : ℤ)
    (price plimit : Option ℚ) (exectype : Option ExecType) (valid : Option ℚ)
    (tradeid : ℤ) : Order × SharpPointBroker :=
  let order : Order :=
    { ref := ref, isbuy := true, data := data, size := size, price := price,
      pricelimit := plimit, exectype := exectype.getD .Market, valid := valid,
      tradeid := tradeid, status := .Created, executed := OrderData.create size }
  (order, { b with orders := updateAssoc ref order b.orders })

/-- `sell(...)`: constructs a `SellOrder` (whose stored size is the negated
request, per `OrderBase.__init__`), registers it under its ref and hands it to
the store. -/
def sell (b : SharpPointBroker) (ref : ℕ) (data : ℕ) (size : ℤ)
    (price plimit : Option ℚ) (exectype : Option ExecType) (valid : Option ℚ)
    (tradeid : ℤ) : Order × SharpPointBroker :=
  let order : Order :=
    { ref := ref, isbuy := false, data := data, size := -size, price := price,
      pricelimit := plimit, exectype := exectype.getD .Market, valid := valid,
      tradeid := tradeid, status := .Created, executed := OrderData.create (-size) }
  (order, { b with orders := updateAssoc ref order b.orders })

end SharpPointBroker

/-- Outcome of `cancel(order)`: either the early return on an
already-cancelled order, or the delegation `self.o.order_cancel(order)` to the
external store (recorded, not performed). -/
inductive CancelOutcome
  | alreadyCancelled
  | delegated (o : Order)
deriving DecidableEq

/-- `cancel(order)`: looks up `self.orders[order.ref]` (KeyError when
unregistered), returns at once when the argument's status is `Cancelled`, and
otherwise delegates to the store. The broker state is returned unchanged in
both non-raising branches: any mutation happens later through callbacks. -/
def SharpPointBroker.cancel (b : SharpPointBroker) (order : Order) :
    Except SPError (CancelOutcome × SharpPointBroker) :=
  match lookupAssoc b.orders order.ref with
  | none => .error .keyError
  | some _ =>
    if order.status = .Cancelled then .ok (.alreadyCancelled, b)
    else .ok (.delegated order, b)

/-- Projection of a `_fill` result used to state claims: the current cash on
success. -/
def cashAfter (e : Except SPError SharpPointBroker) : Option ℚ :=
  match e with
  | .ok b => some b.cash
  | .error _ => none

/-- Projection of a transition result used to state counterexamples: the
registered order at `r` on success. -/
def orderAfterOp (e : Except SPError SharpPointBroker) (r : ℕ) : Option Order :=
  match e with
  | .ok b => lookupAssoc b.orders r
  | .error _ => none

/-- Concrete broker with the default parameters of the source (`cash` 10000,
`checksubmit` on, `eosbar` off) holding the given orders, used by witnesses
and counterexamples. -/
def mkBroker (os : List (ℕ × Order)) : SharpPointBroker :=
  { startingcash := 10000, cash := 10000, checksubmit := true, eosbar := false,
    orders := os, pending := [], positions := [], notifs := [], submitted := [] }

/-- Concrete market buy order with a fresh execution record, used by
witnesses and counterexamples. -/
def mkBuyOrder (ref : ℕ) (size : ℤ) (status : OrderStatus) : Order :=
  { ref := ref, isbuy := true, data := 0, size := size, price := none,
    pricelimit := none, exectype := .Market, valid := none, tradeid := 0,
    status := status, executed := OrderData.create size }

/-- Broker for C1 and C2: one registered accepted buy order for 10 units, the
target of the `_fill` calls. -/
def exBroker1 : SharpPointBroker := mkBroker [(1, mkBuyOrder 1 10 .Accepted)]

/-- Broker for C3: one registered order already in the terminal `Completed`
state. -/
def exBroker3 : SharpPointBroker := mkBroker [(1, mkBuyOrder 1 10 .Completed)]

/-- Already-cancelled order for the C5 witness. -/
def exOrder5 : Order := mkBuyOrder 1 10 .Cancelled

/-- Broker for the C5 witness holding the cancelled order. -/
def exBroker5 : SharpPointBroker := mkBroker [(1, exOrder5)]

/-- Broker for the C9 witness: one accepted buy order for 10 units. -/
def exBroker9 : SharpPointBroker := mkBroker [(1, mkBuyOrder 1 10 .Accepted)]

/-- The C9 witness broker after a successful `_submit` of order 1. -/
def exBroker9After : SharpPointBroker :=
  match exBroker9._submit 1 with
  | .ok b => b
  | .error _ => exBroker9

/-- Writing a key then reading it back yields the written value. -/
theorem lookupAssoc_updateAssoc_self {α : Type} (k : ℕ) (v : α) (l : List (ℕ × α)) :
    lookupAssoc (updateAssoc k v l) k = some v := by
  induction l with
  | nil => simp [updateAssoc, lookupAssoc]
  | cons hd tl ih =>
    obtain ⟨k', v'⟩ := hd
    by_cases h : k' = k
    · subst h
      simp [updateAssoc, lookupAssoc]
    · simp [updateAssoc, h, lookupAssoc, ih]

/-- A successful `_submit` appends exactly one notification. -/
theorem notifs_after_submit {b b2 : SharpPointBroker} {oref : ℕ}
    (h : b._submit oref = .ok b2) : ∃ n, b2.notifs = b.notifs ++ [n] := by
  unfold SharpPointBroker._submit at h
  split at h
  · exact absurd h (by simp)
  · simp only [Except.ok.injEq] at h
    subst h
    exact ⟨_, rfl⟩

/-- A successful `_accept` appends exactly one notification. -/
theorem notifs_after_accept {b b2 : SharpPointBroker} {oref : ℕ}
    (h : b._accept oref = .ok b2) : ∃ n, b2.notifs = b.notifs ++ [n] := by
  unfold SharpPointBroker._accept at h
  split at h
  · exact absurd h (by simp)
  · simp only [Except.ok.injEq] at h
    subst h
    exact ⟨_, rfl⟩

/-- A successful `_reject` appends exactly one notification. -/
theorem notifs_after_reject {b b2 : SharpPointBroker} {oref : ℕ} {dt : ℚ}
    (h : b._reject oref dt = .ok b2) : ∃ n, b2.notifs = b.notifs ++ [n] := by
  unfold SharpPointBroker._reject at h
  split at h
  · exact absurd h (by simp)
  · simp only [Except.ok.injEq] at h
    subst h
    exact ⟨_, rfl⟩

/-- A successful `_cancel` appends exactly one notification — vacuously: the
call never succeeds, since it raises `TypeError` (or `KeyError`). -/
theorem notifs_after_cancel {b b2 : SharpPointBroker} {oref : ℕ}
    (h : b._cancel oref = .ok b2) : ∃ n, b2.notifs = b.notifs ++ [n] := by
  unfold SharpPointBroker._cancel at h
  split at h
  · exact absurd h (by simp)
  · exact absurd h (by simp)

/-- A successful `_expire` appends exactly one notification — vacuously: the
call never succeeds, since it raises `TypeError` (or `KeyError`). -/
theorem notifs_after_expire {b b2 : SharpPointBroker} {oref : ℕ}
    (h : b._expire oref = .ok b2) : ∃ n, b2.notifs = b.notifs ++ [n] := by
  unfold SharpPointBroker._expire at h
  split at h
  · exact absurd h (by simp)
  · exact absurd h (by simp)

/-- A successful `_fill` appends exactly one notification — vacuously: the
call never succeeds, since it raises `TypeError` (or `KeyError`). -/
theorem notifs_after_fill {b b2 : SharpPointBroker} {oref : ℕ} {sz : ℤ} {pr dt : ℚ}
    (h : b._fill oref sz pr dt = .ok b2) : ∃ n, b2.notifs = b.notifs ++ [n] := by
  unfold SharpPointBroker._fill at h
  split at h
  · exact absurd h (by simp)
  · exact absurd h (by simp)

/-- The common result shape of the three id-keyed transition operations that
can succeed (`_submit`, `_accept`, `_reject`): with the order registered, the
call succeeds, appends exactly one notification and re-registers the
transformed order. -/
theorem ok_notify_shape (b : SharpPointBroker) (r : ℕ) (g : Order → Order) (o : Order)
    (hl : lookupAssoc b.orders r = some o) :
    ∃ b', (match lookupAssoc b.orders r with
      | none => (.error .keyError : Except SPError SharpPointBroker)
      | some order =>
        .ok (SharpPointBroker.notify
          { b with orders := updateAssoc r (g order) b.orders } (g order))) = .ok b' ∧
      b'.notifs.length = b.notifs.length + 1 ∧
      lookupAssoc b'.orders r = some (g o) := by
  rw [hl]
  refine ⟨_, rfl, ?_, ?_⟩
  · simp [SharpPointBroker.notify]
  · show lookupAssoc (updateAssoc r (g o) b.orders) r = some (g o)
    exact lookupAssoc_updateAssoc_self _ _ _

/-- `Order.reject` always leaves the order with status `Rejected`, whether or
not the early-return branch fires. -/
theorem reject_status (o : Order) (dt : ℚ) : ( Order.reject o dt).status = .Rejected := by
  unfold Order.reject
  split
  · assumption
  · rfl

/-- Claim C1 (code bug): the claim describes the intended fill accounting,
but `_fill` is unrunnable — with the order registered, every call raises
`TypeError` at `pos = self.getposition(data, clone=False)` (the class's own
`getposition` takes no `clone` keyword), before any accounting is reached, so
cash is never updated by fills; this theorem evaluates the code on the failing
path: the call errors and produces no cash value. -/
theorem C1_fill_raises_typeerror (b : SharpPointBroker) (oref : ℕ) (sz : ℤ)
    (pr dt : ℚ) (o : Order) (hl : lookupAssoc b.orders oref = some o) :
    b._fill oref sz pr dt = .error .typeError ∧
    cashAfter (b._fill oref sz pr dt) = none := by
  unfold SharpPointBroker._fill
  rw [hl]
  exact ⟨rfl, rfl⟩

/-- Witness for C1: the failing input of the claim's own scenario — a fill of
10 units at price 100 on a registered 10-unit buy order raises `TypeError`. -/
theorem C1_witness :
    exBroker1._fill 1 10 100 0 = .error .typeError ∧
    cashAfter (exBroker1._fill 1 10 100 0) = none :=
  C1_fill_raises_typeerror exBroker1 1 10 100 0 (mkBuyOrder 1 10 .Accepted) rfl

/-- Claim C2 (code bug): the claim describes the intended executed-size
bookkeeping of fills, but no fill can ever be applied — `_fill` never returns
successfully for any broker state, ref or fill, because it raises `KeyError`
on an unregistered ref and otherwise `TypeError` at the
`getposition(data, clone=False)` call; the executed size of an order is
therefore never changed by `_fill`. -/
theorem C2_fill_never_succeeds (b : SharpPointBroker) (oref : ℕ) (sz : ℤ)
    (pr dt : ℚ) (b' : SharpPointBroker) :
    b._fill oref sz pr dt ≠ .ok b' := by
  unfold SharpPointBroker._fill
  split
  · simp
  · simp

/-- Witness for C2: the overfill the original claim worried about — 20 units
against a 10-unit order — cannot even be applied. -/
theorem C2_witness : exBroker1._fill 1 20 100 0 ≠ .ok exBroker1 :=
  C2_fill_never_succeeds exBroker1 1 20 100 0 exBroker1

/-- Claim C3 (corrected), counterexample: calling `_submit` on an order in the
terminal `Completed` state does not fail with anything — it silently succeeds
and overwrites the status to `Submitted`. -/
theorem C3_counterexample :
    (lookupAssoc exBroker3.orders 1).map (fun o => o.status) = some .Completed ∧
    (orderAfterOp (exBroker3._submit 1) 1).map (fun o => o.status) = some .Submitted ∧
    OrderStatus.Submitted ≠ OrderStatus.Completed := by
  refine ⟨rfl, rfl, by decide⟩

/-- Claim C3 (amended): no `InvalidTransition` failure exists. On a registered
order in a terminal state, `_submit`, `_accept` and `_reject` silently
succeed, overwrite the status with their own target status and append exactly
one notification; `_cancel` and `_expire` do fail and leave the state
unchanged — but with `TypeError` from the argument-arity slip in their calls
to `order.cancel(self)` / `order.expire(self)`, not with any designed
`InvalidTransition` guard. -/
theorem C3_no_invalid_transition (b : SharpPointBroker) (r : ℕ) (o : Order)
    (dt : ℚ) (hl : lookupAssoc b.orders r = some o)
    (hterm : o.status.isTerminal = true) :
    (∃ b' o', b._submit r = .ok b' ∧ b'.notifs.length = b.notifs.length + 1 ∧
      lookupAssoc b'.orders r = some o' ∧ o'.status = .Submitted) ∧
    (∃ b' o', b._accept r = .ok b' ∧ b'.notifs.length = b.notifs.length + 1 ∧
      lookupAssoc b'.orders r = some o' ∧ o'.status = .Accepted) ∧
    (∃ b' o', b._reject r dt = .ok b' ∧ b'.notifs.length = b.notifs.length + 1 ∧
      lookupAssoc b'.orders r = some o' ∧ o'.status = .Rejected) ∧
    b._cancel r = .error .typeError ∧
    b._expire r = .error .typeError := by
  refine ⟨?_, ?_, ?_, ?_, ?_⟩
  · obtain ⟨b', h1, h2, h3⟩ := ok_notify_shape b r Order.submit o hl
    exact ⟨b', o.submit, h1, h2, h3, rfl⟩
  · obtain ⟨b', h1, h2, h3⟩ := ok_notify_shape b r Order.accept o hl
    exact ⟨b', o.accept, h1, h2, h3, rfl⟩
  · obtain ⟨b', h1, h2, h3⟩ := ok_notify_shape b r (fun x => Order.reject x dt) o hl
    exact ⟨b', Order.reject o dt, h1, h2, h3, reject_status o dt⟩
  · unfold SharpPointBroker._cancel
    rw [hl]
  · unfold SharpPointBroker._expire
    rw [hl]

/-- Witness for C3: `_submit` on a concrete `Completed` order succeeds,
notifies once, and marks the order `Submitted`. -/
theorem C3_witness :
    ∃ b' o', exBroker3._submit 1 = .ok b' ∧
      b'.notifs.length = exBroker3.notifs.length + 1 ∧
      lookupAssoc b'.orders 1 = some o' ∧ o'.status = .Submitted :=
  (C3_no_invalid_transition exBroker3 1 (mkBuyOrder 1 10 .Completed) 0 rfl rfl).1

/-- Claim C4 (corrected), counterexample: `buy` with size 0 (non-positive)
does not fail — the order is constructed, registered in the order registry
under its ref, and handed to the store; no `InvalidOrderSpec` error exists in
the code. -/
theorem C4_counterexample :
    ((lookupAssoc (((mkBroker []).buy 1 0 0 none none none none 0).2).orders 1).map
        (fun o => o.size) = some 0) ∧
    (((mkBroker []).buy 1 0 0 none none none none 0).2).notifs = [] := by
  refine ⟨rfl, rfl⟩

/-- Claim C4 (amended): `buy` and `sell` perform no size validation — for any
non-positive size the order is created with status `Created`, registered under
its ref, and forwarded to the store; no error is raised and no notification is
enqueued by the call itself. -/
theorem C4_buy_sell_register_unconditionally (b : SharpPointBroker) (ref data : ℕ)
    (size : ℤ) (price plimit : Option ℚ) (exectype : Option ExecType)
    (valid : Option ℚ) (tradeid : ℤ) (hsz : size ≤ 0) :
    (lookupAssoc ((b.buy ref data size price plimit exectype valid tradeid).2).orders ref =
        some (b.buy ref data size price plimit exectype valid tradeid).1 ∧
      (b.buy ref data size price plimit exectype valid tradeid).1.size = size ∧
      (b.buy ref data size price plimit exectype valid tradeid).1.status = .Created ∧
      ((b.buy ref data size price plimit exectype valid tradeid).2).notifs = b.notifs) ∧
    (lookupAssoc ((b.sell ref data size price plimit exectype valid tradeid).2).orders ref =
        some (b.sell ref data size price plimit exectype valid tradeid).1 ∧
      (b.sell ref data size price plimit exectype valid tradeid).1.size = -size ∧
      (b.sell ref data size price plimit exectype valid tradeid).1.status = .Created ∧
      ((b.sell ref data size price plimit exectype valid tradeid).2).notifs = b.notifs) := by
  refine ⟨⟨?_, rfl, rfl, rfl⟩, ⟨?_, rfl, rfl, rfl⟩⟩
  · exact lookupAssoc_updateAssoc_self _ _ b.orders
  · exact lookupAssoc_updateAssoc_self _ _ b.orders

/-- Witness for C4: the amended theorem applied to a size-0 buy/sell on an
empty broker. -/
theorem C4_witness :
    (lookupAssoc (((mkBroker []).buy 3 0 0 none none none none 0).2).orders 3 =
        some ((mkBroker []).buy 3 0 0 none none none none 0).1 ∧
      ((mkBroker []).buy 3 0 0 none none none none 0).1.size = 0 ∧
      ((mkBroker []).buy 3 0 0 none none none none 0).1.status = .Created ∧
      (((mkBroker []).buy 3 0 0 none none none none 0).2).notifs = (mkBroker []).notifs) ∧
    (lookupAssoc (((mkBroker []).sell 3 0 0 none none none none 0).2).orders 3 =
        some ((mkBroker []).sell 3 0 0 none none none none 0).1 ∧
      ((mkBroker []).sell 3 0 0 none none none none 0).1.size = -0 ∧
      ((mkBroker []).sell 3 0 0 none none none none 0).1.status = .Created ∧
      (((mkBroker []).sell 3 0 0 none none none none 0).2).notifs = (mkBroker []).notifs) :=
  C4_buy_sell_register_unconditionally (mkBroker []) 3 0 0 none none none none 0
    (by decide)

/-- Claim C5 (confirmed): `cancel(order)` on a registered order whose status
is already `Cancelled` returns immediately with the broker state unchanged —
no delegation to the store and no change to the notification queue. -/
theorem C5_cancel_already_cancelled_noop (b : SharpPointBroker) (order o : Order)
    (hreg : lookupAssoc b.orders order.ref = some o)
    (hst : order.status = .Cancelled) :
    b.cancel order = .ok (.alreadyCancelled, b) := by
  unfold SharpPointBroker.cancel
  rw [hreg]
  simp [hst]

/-- Witness for C5: cancelling a concrete already-cancelled order. -/
theorem C5_witness : exBroker5.cancel exOrder5 = .ok (.alreadyCancelled, exBroker5) :=
  C5_cancel_already_cancelled_noop exBroker5 exOrder5 exOrder5 rfl rfl

/-- Claim C6 (confirmed): `orderstatus(order)` on a ref that is not in the
order registry fails (the dict lookup raises `KeyError`, the code's
realization of the spec's `UnknownOrder`) and never returns a status; the
statement quantifies over every broker state, hence over every configuration
including `checksubmit`. -/
theorem C6_orderstatus_unknown (b : SharpPointBroker) (order : Order)
    (h : lookupAssoc b.orders order.ref = none) :
    b.orderstatus order = .error .keyError := by
  unfold SharpPointBroker.orderstatus
  rw [h]

/-- Witness for C6: status lookup of an unregistered order on an empty
broker. -/
theorem C6_witness :
    (mkBroker []).orderstatus (mkBuyOrder 7 5 .Created) = .error .keyError :=
  C6_orderstatus_unknown (mkBroker []) (mkBuyOrder 7 5 .Created) rfl

/-- Claim C7 (confirmed): `get_notification()` on an empty notification queue
returns `None` and leaves the entire broker state unchanged — so repeated
calls keep returning `None` and never fail. -/
theorem C7_get_notification_empty (b : SharpPointBroker) (h : b.notifs = []) :
    b.get_notification = (none, b) := by
  unfold SharpPointBroker.get_notification
  rw [h]

/-- Witness for C7: an empty broker. -/
theorem C7_witness : (mkBroker []).get_notification = (none, mkBroker []) :=
  C7_get_notification_empty (mkBroker []) rfl

/-- Claim C8 (confirmed): `notify(order)` enqueues `order.clone()`, a
snapshot taken at call time, at the back of the queue; every subsequent
transition operation only appends to the queue, so the already-enqueued
snapshot (and every earlier entry) is unchanged by later mutation of the live
order. -/
theorem C8_notification_snapshot_stable (b : SharpPointBroker) (o : Order)
    (b1 : SharpPointBroker) (oref : ℕ) (dt : ℚ) (sz : ℤ) (pr fdt : ℚ)
    (hb1 : b1 = b.notify o) :
    b1.notifs.getLast? = some (some o.clone) ∧
    (∀ b2, b1._submit oref = .ok b2 → ∃ t, b2.notifs = b1.notifs ++ t) ∧
    (∀ b2, b1._accept oref = .ok b2 → ∃ t, b2.notifs = b1.notifs ++ t) ∧
    (∀ b2, b1._reject oref dt = .ok b2 → ∃ t, b2.notifs = b1.notifs ++ t) ∧
    (∀ b2, b1._cancel oref = .ok b2 → ∃ t, b2.notifs = b1.notifs ++ t) ∧
    (∀ b2, b1._expire oref = .ok b2 → ∃ t, b2.notifs = b1.notifs ++ t) ∧
    (∀ b2, b1._fill oref sz pr fdt = .ok b2 → ∃ t, b2.notifs = b1.notifs ++ t) := by
  subst hb1
  refine ⟨?_, ?_, ?_, ?_, ?_, ?_, ?_⟩
  · simp [SharpPointBroker.notify, List.getLast?_concat]
  · intro b2 h
    obtain ⟨n, hn⟩ := notifs_after_submit h
    exact ⟨[n], hn⟩
  · intro b2 h
    obtain ⟨n, hn⟩ := notifs_after_accept h
    exact ⟨[n], hn⟩
  · intro b2 h
    obtain ⟨n, hn⟩ := notifs_after_reject h
    exact ⟨[n], hn⟩
  · intro b2 h
    obtain ⟨n, hn⟩ := notifs_after_cancel h
    exact ⟨[n], hn⟩
  · intro b2 h
    obtain ⟨n, hn⟩ := notifs_after_expire h
    exact ⟨[n], hn⟩
  · intro b2 h
    obtain ⟨n, hn⟩ := notifs_after_fill h
    exact ⟨[n], hn⟩

/-- Witness for C8: the enqueued snapshot of a concrete order is its clone at
notify time. -/
theorem C8_witness :
    ((mkBroker [(1, mkBuyOrder 1 10 .Accepted)]).notify
        (mkBuyOrder 1 10 .Accepted)).notifs.getLast? =
      some (some (mkBuyOrder 1 10 .Accepted).clone) :=
  (C8_notification_snapshot_stable (mkBroker [(1, mkBuyOrder 1 10 .Accepted)])
    (mkBuyOrder 1 10 .Accepted)
    ((mkBroker [(1, mkBuyOrder 1 10 .Accepted)]).notify (mkBuyOrder 1 10 .Accepted))
    1 0 5 100 0 rfl).1

/-- Claim C9 (confirmed): every successfully applied transition — `_submit`,
`_accept`, `_reject`, `_cancel`, `_expire` or `_fill` — appends exactly one
notification to the queue: its length grows by exactly one. The last three
conjuncts are vacuous on this code: `_cancel`, `_expire` and `_fill` always
raise (`TypeError` after a successful lookup) and so can never be successfully
applied, and a raising call appends nothing — the claim, quantified over
successful transitions, therefore holds. -/
theorem C9_one_notification_per_transition (b : SharpPointBroker) (oref : ℕ)
    (dt : ℚ) (sz : ℤ) (pr fdt : ℚ) :
    (∀ b', b._submit oref = .ok b' → b'.notifs.length = b.notifs.length + 1) ∧
    (∀ b', b._accept oref = .ok b' → b'.notifs.length = b.notifs.length + 1) ∧
    (∀ b', b._reject oref dt = .ok b' → b'.notifs.length = b.notifs.length + 1) ∧
    (∀ b', b._cancel oref = .ok b' → b'.notifs.length = b.notifs.length + 1) ∧
    (∀ b', b._expire oref = .ok b' → b'.notifs.length = b.notifs.length + 1) ∧
    (∀ b', b._fill oref sz pr fdt = .ok b' → b'.notifs.length = b.notifs.length + 1) := by
  refine ⟨?_, ?_, ?_, ?_, ?_, ?_⟩ <;> intro b' h
  · obtain ⟨n, hn⟩ := notifs_after_submit h
    simp [hn]
  · obtain ⟨n, hn⟩ := notifs_after_accept h
    simp [hn]
  · obtain ⟨n, hn⟩ := notifs_after_reject h
    simp [hn]
  · obtain ⟨n, hn⟩ := notifs_after_cancel h
    simp [hn]
  · obtain ⟨n, hn⟩ := notifs_after_expire h
    simp [hn]
  · obtain ⟨n, hn⟩ := notifs_after_fill h
    simp [hn]

/-- Witness for C9: a concrete successful `_submit` appends exactly one
notification. -/
theorem C9_witness : exBroker9After.notifs.length = exBroker9.notifs.length + 1 :=
  (C9_one_notification_per_transition exBroker9 1 0 5 100 0).1 exBroker9After rfl

/-- Claim C10 (confirmed): `get_value` returns exactly 0.0 for every broker
state and every argument — its body is the constant `return 0.0`, independent
of positions, cash, and fills. -/
theorem C10_get_value_always_zero (b : SharpPointBroker) (datas : Option (List ℕ)) :
    b.get_value datas = 0 := rfl

end SPTrader
